import Mathlib

/-!
Verification of the ArmorIQ admin facade (src/admin-api/main.py).

The facade is a single module: a helper `proxy_request` that issues one
outbound HTTP call to the upstream proxy, validates the status code against
an expected set, and decodes the JSON body; plus eight thin FastAPI route
handlers that call it with fixed method / path / expected-status arguments.

Shallow embedding choices:
* JSON values are an inductive `Json`.
* An httpx response is a record `Response` carrying the status code, the
  body text (`content`, with `text` the decoded alias httpx exposes), the
  reason phrase, and `jsonResult` — the outcome of calling
  `response.json()`: the decoded value, or the `ValueError` message when the
  body is not valid JSON.
* The network is a function `upstream : OutboundRequest → TransportResult`;
  `TransportResult.fault` stands for a transport-level exception
  (connection refused, timeout, DNS failure) raised by the client call.
* The result of a handler is an `Outcome`: a normal return value
  (`none` meaning "no response body"), a raised `HTTPException`, or an
  uncaught transport fault propagating out of the handler.
* Pydantic models become structures; `model_dump(mode="json")` becomes an
  explicit serializer that, per pydantic defaults, emits every declared
  field and renders unset `Optional[bool]` fields as JSON null;
  `model_validate` (the request-body validation FastAPI performs before
  invoking a handler) becomes an explicit parser that requires the declared
  fields, accepts bool-or-null permission flags, and ignores extra keys
  (the pydantic default `extra="ignore"`).
-/

/-- JSON values. -/
inductive Json where
  | null : Json
  | bool : Bool → Json
  | num : Int → Json
  | str : String → Json
  | arr : List Json → Json
  | obj : List (String × Json) → Json

/-- First-match lookup of a key in a JSON object field list. -/
def jsonLookup : List (String × Json) → String → Option Json
  | [], _ => none
  | (k, v) :: rest, key => if k = key then some v else jsonLookup rest key

/-- Lookup of a key in a JSON value known to be an object. -/
def objLookup : Json → String → Option Json
  | Json.obj kvs, key => jsonLookup kvs key
  | _, _ => none

/-- The list of keys of a JSON object (empty for non-objects). -/
def objKeys : Json → List String
  | Json.obj kvs => kvs.map Prod.fst
  | _ => []

/-- `Permissions` (main.py): four independently nullable boolean flags. -/
structure Permissions where
  read : Option Bool
  create : Option Bool
  update : Option Bool
  delete : Option Bool

/-- `PolicyCreate` (main.py): required identifiers plus permissions
(defaulting, via `default_factory=Permissions`, to all-unset). -/
structure PolicyCreate where
  agentId : String
  endpointId : String
  permissions : Permissions

/-- `PolicyUpdate` (main.py): permissions only. -/
structure PolicyUpdate where
  permissions : Permissions

/-- Serialization of an `Optional[bool]` field under
`model_dump(mode="json")`: unset becomes JSON null. -/
def optBoolToJson : Option Bool → Json
  | none => Json.null
  | some b => Json.bool b

/-- `Permissions.model_dump(mode="json")`: every declared field is emitted,
unset flags as null. -/
def Permissions.model_dump (p : Permissions) : Json :=
  Json.obj [("read", optBoolToJson p.read), ("create", optBoolToJson p.create),
    ("update", optBoolToJson p.update), ("delete", optBoolToJson p.delete)]

/-- `PolicyCreate.model_dump(mode="json")`. -/
def PolicyCreate.model_dump (p : PolicyCreate) : Json :=
  Json.obj [("agentId", Json.str p.agentId), ("endpointId", Json.str p.endpointId),
    ("permissions", Permissions.model_dump p.permissions)]

/-- `PolicyUpdate.model_dump(mode="json")`. -/
def PolicyUpdate.model_dump (p : PolicyUpdate) : Json :=
  Json.obj [("permissions", Permissions.model_dump p.permissions)]

/-- Validation of one `Optional[bool]` pydantic field from a JSON object:
absent or null means unset; a boolean is taken as-is; anything else is a
validation error. -/
def parseOptBool : Option Json → Except String (Option Bool)
  | none => Except.ok none
  | some Json.null => Except.ok none
  | some (Json.bool b) => Except.ok (some b)
  | some _ => Except.error "Input should be a valid boolean"

/-- `Permissions.model_validate`: the value must be an object; each flag is
an optional boolean; extra keys are ignored (pydantic default). -/
def Permissions.model_validate (j : Json) : Except String Permissions :=
  match j with
  | Json.obj kvs => do
    let r ← parseOptBool (jsonLookup kvs "read")
    let c ← parseOptBool (jsonLookup kvs "create")
    let u ← parseOptBool (jsonLookup kvs "update")
    let d ← parseOptBool (jsonLookup kvs "delete")
    Except.ok { read := r, create := c, update := u, delete := d }
  | _ => Except.error "Input should be a valid dictionary"

/-- `PolicyCreate.model_validate`: `agentId` and `endpointId` are required
string fields; `permissions` defaults to all-unset when absent; extra keys
are ignored (pydantic default). -/
def PolicyCreate.model_validate (j : Json) : Except String PolicyCreate :=
  match j with
  | Json.obj kvs =>
    match jsonLookup kvs "agentId" with
    | some (Json.str a) =>
      match jsonLookup kvs "endpointId" with
      | some (Json.str e) =>
        match jsonLookup kvs "permissions" with
        | none =>
          Except.ok
            { agentId := a, endpointId := e,
              permissions := { read := none, create := none, update := none, delete := none } }
        | some pj =>
          match Permissions.model_validate pj with
          | Except.ok p => Except.ok { agentId := a, endpointId := e, permissions := p }
          | Except.error msg => Except.error msg
      | some _ => Except.error "endpointId: Input should be a valid string"
      | none => Except.error "endpointId: Field required"
    | some _ => Except.error "agentId: Input should be a valid string"
    | none => Except.error "agentId: Field required"
  | _ => Except.error "Input should be a valid dictionary"

/-- `PolicyUpdate.model_validate`: `permissions` defaults to all-unset when
absent; extra keys are ignored. -/
def PolicyUpdate.model_validate (j : Json) : Except String PolicyUpdate :=
  match j with
  | Json.obj kvs =>
    match jsonLookup kvs "permissions" with
    | none =>
      Except.ok { permissions := { read := none, create := none, update := none, delete := none } }
    | some pj =>
      match Permissions.model_validate pj with
      | Except.ok p => Except.ok { permissions := p }
      | Except.error msg => Except.error msg
  | _ => Except.error "Input should be a valid dictionary"

/-- A FastAPI `HTTPException`: status code plus JSON detail payload. -/
structure HTTPException where
  status_code : Nat
  detail : Json

/-- The outbound HTTP request `proxy_request` issues via httpx. -/
structure OutboundRequest where
  method : String
  url : String
  json : Option Json

/-- An httpx response: status code, body text (`content`; httpx exposes the
decoded body also as `.text`), reason phrase, and the result of calling
`response.json()` on the body: the decoded value or the `ValueError`
message. -/
structure Response where
  status_code : Nat
  content : String
  reason_phrase : String
  jsonResult : Except String Json

/-- httpx `response.text`: the decoded body. -/
def Response.text (r : Response) : String := r.content

/-- What the transport returns for an outbound call: a response, or a
transport-level exception (connection refused, 10s timeout, DNS failure). -/
inductive TransportResult where
  | ok : Response → TransportResult
  | fault : String → TransportResult

/-- The observable result of a handler: a normal return (`none` = no
response body), a raised `HTTPException`, or an uncaught transport fault
propagating out of the handler. -/
inductive Outcome where
  | ok : Option Json → Outcome
  | httpError : HTTPException → Outcome
  | unhandledFault : String → Outcome

/-- `PROXY_URL = os.getenv("ARMORIQ_PROXY_URL", "http://localhost:5001")`
with the environment variable unset: the default base URL. -/
def PROXY_URL : String := "http://localhost:5001"

/-- `proxy_request` (main.py): issue the outbound call to
`PROXY_URL + path`; a transport fault propagates uncaught. Otherwise: an
unexpected status code raises `HTTPException` with the upstream status code
and the upstream JSON body as detail, or, when the body does not parse,
`{error: text or reason_phrase}`; an expected 204 or an empty body returns
no value; otherwise the body is parsed as JSON and returned, a parse
failure raising a 500 `HTTPException` with the parse error detail. -/
def proxy_request (upstream : OutboundRequest → TransportResult) (method : String)
    (path : String) (json : Option Json) (expected : List Nat) : Outcome :=
  match upstream { method := method, url := PROXY_URL ++ path, json := json } with
  | TransportResult.fault e => Outcome.unhandledFault e
  | TransportResult.ok response =>
    if response.status_code ∉ expected then
      Outcome.httpError
        { status_code := response.status_code,
          detail :=
            match response.jsonResult with
            | Except.ok j => j
            | Except.error _ =>
              Json.obj [("error",
                Json.str (if response.text = "" then response.reason_phrase else response.text))] }
    else if response.status_code = 204 then Outcome.ok none
    else if response.content = "" then Outcome.ok none
    else
      match response.jsonResult with
      | Except.ok j => Outcome.ok (some j)
      | Except.error exc =>
        Outcome.httpError
          { status_code := 500,
            detail := Json.obj [("error", Json.str "Invalid JSON from proxy"),
              ("details", Json.str exc)] }

/-- The `delete_policy` handler discards the value `proxy_request` returned
and returns no body itself; a raised exception or fault still propagates. -/
def dropBody : Outcome → Outcome
  | Outcome.ok _ => Outcome.ok none
  | e => e

/-- `GET /status` handler. -/
def get_status (upstream : OutboundRequest → TransportResult) : Outcome :=
  proxy_request upstream "GET" "/health" none [200]

/-- `GET /logs` handler. -/
def get_logs (upstream : OutboundRequest → TransportResult) : Outcome :=
  proxy_request upstream "GET" "/api/audit-logs" none [200]

/-- `GET /endpoints` handler. -/
def get_endpoints (upstream : OutboundRequest → TransportResult) : Outcome :=
  proxy_request upstream "GET" "/api/endpoints" none [200]

/-- `GET /policies` handler. -/
def list_policies (upstream : OutboundRequest → TransportResult) : Outcome :=
  proxy_request upstream "GET" "/api/policies" none [200]

/-- `GET /policies/{agent_id}` handler. -/
def get_policy (upstream : OutboundRequest → TransportResult) (agent_id : String) : Outcome :=
  proxy_request upstream "GET" ("/api/policies/" ++ agent_id) none [200]

/-- `POST /policies` handler body: forwards the validated payload,
serialized with `model_dump(mode="json")`, expecting 201. -/
def create_policy (upstream : OutboundRequest → TransportResult) (payload : PolicyCreate) : Outcome :=
  proxy_request upstream "POST" "/api/policies" (some (PolicyCreate.model_dump payload)) [201]

/-- `PUT /policies/{agent_id}` handler body. -/
def update_policy (upstream : OutboundRequest → TransportResult) (agent_id : String)
    (payload : PolicyUpdate) : Outcome :=
  proxy_request upstream "PUT" ("/api/policies/" ++ agent_id)
    (some (PolicyUpdate.model_dump payload)) [200]

/-- `DELETE /policies/{agent_id}` handler body: the returned value is
discarded (`return` with no value). -/
def delete_policy (upstream : OutboundRequest → TransportResult) (agent_id : String) : Outcome :=
  dropBody (proxy_request upstream "DELETE" ("/api/policies/" ++ agent_id) none [204])

/-- Result of a full route invocation: FastAPI rejects the body with a
validation error (a 422) before the handler runs, or the handler runs. -/
inductive RouteResult where
  | validationError : String → RouteResult
  | handled : Outcome → RouteResult

/-- The full `POST /policies` route: FastAPI validates the inbound JSON
body against `PolicyCreate` before invoking the handler. -/
def create_policy_route (upstream : OutboundRequest → TransportResult) (body : Json) : RouteResult :=
  match PolicyCreate.model_validate body with
  | Except.error e => RouteResult.validationError e
  | Except.ok payload => RouteResult.handled (create_policy upstream payload)

/-- The full `PUT /policies/{agent_id}` route. -/
def update_policy_route (upstream : OutboundRequest → TransportResult) (agent_id : String)
    (body : Json) : RouteResult :=
  match PolicyUpdate.model_validate body with
  | Except.error e => RouteResult.validationError e
  | Except.ok payload => RouteResult.handled (update_policy upstream agent_id payload)

/-- A JSON rendering of an outbound request, used by test upstreams that
echo back exactly what they were sent. -/
def reqEcho (req : OutboundRequest) : Json :=
  Json.obj [("method", Json.str req.method), ("url", Json.str req.url),
    ("body", match req.json with | none => Json.null | some j => j)]

/-- A test upstream that answers every request with the given status code
and a JSON body echoing the request it received. -/
def probe (code : Nat) : OutboundRequest → TransportResult :=
  fun req =>
    TransportResult.ok
      { status_code := code, content := "x", reason_phrase := "",
        jsonResult := Except.ok (reqEcho req) }

/-- The permission flags of `p` are exactly what validating the
`permissions` member of the inbound object fields `kvs` produces: all-unset
when the member is absent, and otherwise the flag-by-flag parse of the
member object. -/
def permissionsAgree (kvs : List (String × Json)) (p : Permissions) : Prop :=
  match jsonLookup kvs "permissions" with
  | none => p = { read := none, create := none, update := none, delete := none }
  | some (Json.obj pkvs) =>
    parseOptBool (jsonLookup pkvs "read") = Except.ok p.read ∧
    parseOptBool (jsonLookup pkvs "create") = Except.ok p.create ∧
    parseOptBool (jsonLookup pkvs "update") = Except.ok p.update ∧
    parseOptBool (jsonLookup pkvs "delete") = Except.ok p.delete
  | some _ => False

/-- The object fields `kvs` bind `key` to no string value: the key is
absent, or bound to a non-string. -/
def noStrField (kvs : List (String × Json)) (key : String) : Prop :=
  ∀ s, jsonLookup kvs key ≠ some (Json.str s)

/-- C1: when the upstream status code is not in the expected set,
`proxy_request` raises an `HTTPException` carrying the upstream status code
verbatim, with detail the upstream body parsed as JSON when that parse
succeeds, and otherwise `{error: <raw text, or reason phrase when the text
is empty>}`. -/
theorem upstream_error_status_and_detail (method path : String) (json : Option Json)
    (expected : List Nat) (r : Response) (h : r.status_code ∉ expected) :
    (∀ j, r.jsonResult = Except.ok j →
      proxy_request (fun _ => TransportResult.ok r) method path json expected
        = Outcome.httpError { status_code := r.status_code, detail := j }) ∧
    (∀ e, r.jsonResult = Except.error e → r.text ≠ "" →
      proxy_request (fun _ => TransportResult.ok r) method path json expected
        = Outcome.httpError
            { status_code := r.status_code,
              detail := Json.obj [("error", Json.str r.text)] }) ∧
    (∀ e, r.jsonResult = Except.error e → r.text = "" →
      proxy_request (fun _ => TransportResult.ok r) method path json expected
        = Outcome.httpError
            { status_code := r.status_code,
              detail := Json.obj [("error", Json.str r.reason_phrase)] }) := by
  refine ⟨?_, ?_, ?_⟩
  · intro j hj
    simp [proxy_request, h, hj]
  · intro e he hne
    simp [proxy_request, h, he, Response.text, hne]
    exact fun hc => absurd hc hne
  · intro e he hemp
    simp [proxy_request, h, he, Response.text] at hemp ⊢
    simp [hemp]

/-- Witness for C1: the `GET /policies/unknown` scenario — upstream 404
with body `{"error": "not found"}` against expected `[200]` is republished
as a 404 with the same detail. -/
theorem upstream_error_status_and_detail_witness :
    proxy_request
      (fun _ => TransportResult.ok
        { status_code := 404, content := "\x7b\x22error\x22: \x22not found\x22\x7d",
          reason_phrase := "Not Found",
          jsonResult := Except.ok (Json.obj [("error", Json.str "not found")]) })
      "GET" "/api/policies/unknown" none [200]
      = Outcome.httpError
          { status_code := 404, detail := Json.obj [("error", Json.str "not found")] } :=
  (upstream_error_status_and_detail "GET" "/api/policies/unknown" none [200]
    { status_code := 404, content := "\x7b\x22error\x22: \x22not found\x22\x7d",
      reason_phrase := "Not Found",
      jsonResult := Except.ok (Json.obj [("error", Json.str "not found")]) }
    (by decide)).1 (Json.obj [("error", Json.str "not found")]) rfl

/-- C2: when the upstream status code is expected, is not 204, and the body
is non-empty and parses as JSON, `proxy_request` returns exactly the
decoded upstream JSON value. -/
theorem expected_json_passthrough (method path : String) (json : Option Json)
    (expected : List Nat) (r : Response) (j : Json) (hin : r.status_code ∈ expected)
    (h204 : r.status_code ≠ 204) (hbody : r.content ≠ "")
    (hj : r.jsonResult = Except.ok j) :
    proxy_request (fun _ => TransportResult.ok r) method path json expected
      = Outcome.ok (some j) := by
  simp [proxy_request, hin, h204, hbody, hj]

/-- Witness for C2: an upstream 200 with body decoding to an object is
returned as that object. -/
theorem expected_json_passthrough_witness :
    proxy_request
      (fun _ => TransportResult.ok
        { status_code := 200, content := "[]", reason_phrase := "OK",
          jsonResult := Except.ok (Json.arr []) })
      "GET" "/api/policies" none [200]
      = Outcome.ok (some (Json.arr [])) :=
  expected_json_passthrough "GET" "/api/policies" none [200]
    { status_code := 200, content := "[]", reason_phrase := "OK",
      jsonResult := Except.ok (Json.arr []) }
    (Json.arr []) (by decide) (by decide) (by decide) rfl

/-- C4: when the upstream status code is expected and either it is 204 or
the body is empty, `proxy_request` returns no value — regardless of what
`response.json()` would have done, since it is never called. -/
theorem no_content_returns_none (method path : String) (json : Option Json)
    (expected : List Nat) (r : Response) (hin : r.status_code ∈ expected)
    (h : r.status_code = 204 ∨ r.content = "") :
    proxy_request (fun _ => TransportResult.ok r) method path json expected
      = Outcome.ok none := by
  rcases h with h204 | hempty
  · rw [h204] at hin
    simp [proxy_request, h204, hin]
  · by_cases hc : r.status_code = 204
    · rw [hc] at hin
      simp [proxy_request, hc, hin]
    · simp [proxy_request, hin, hc, hempty]

/-- Witness for C4: the `DELETE` scenario — upstream 204 with empty body
(whose parse, had it been attempted, would have failed) yields no body. -/
theorem no_content_returns_none_witness :
    proxy_request
      (fun _ => TransportResult.ok
        { status_code := 204, content := "", reason_phrase := "No Content",
          jsonResult := Except.error "Expecting value" })
      "DELETE" "/api/policies/a1" none [204]
      = Outcome.ok none :=
  no_content_returns_none "DELETE" "/api/policies/a1" none [204]
    { status_code := 204, content := "", reason_phrase := "No Content",
      jsonResult := Except.error "Expecting value" }
    (by decide) (Or.inl (by decide))

/-- C3 counterexample: an expected 204 whose (non-compliant) body is
non-empty and fails to parse does NOT raise the 500 protocol error the
claim demands — the 204 branch returns no value before parsing is ever
attempted. This is a reachable call: `DELETE /policies/{agent_id}` expects
exactly 204. -/
theorem status204_malformed_body_not_500_cex :
    proxy_request
      (fun _ => TransportResult.ok
        { status_code := 204, content := "not-json", reason_phrase := "No Content",
          jsonResult := Except.error "Expecting value" })
      "DELETE" "/api/policies/a1" none [204]
      = Outcome.ok none
    ∧ Outcome.ok none ≠ Outcome.httpError
        { status_code := 500,
          detail := Json.obj [("error", Json.str "Invalid JSON from proxy"),
            ("details", Json.str "Expecting value")] } :=
  ⟨rfl, fun hcon => Outcome.noConfusion hcon⟩

/-- C3 (amended): when the upstream status is expected and NOT 204 and the
non-empty body fails to parse as JSON, `proxy_request` raises a 500
`HTTPException` whose detail distinguishes the condition and carries the
parse error. -/
theorem malformed_json_yields_500 (method path : String) (json : Option Json)
    (expected : List Nat) (r : Response) (e : String) (hin : r.status_code ∈ expected)
    (h204 : r.status_code ≠ 204) (hbody : r.content ≠ "")
    (he : r.jsonResult = Except.error e) :
    proxy_request (fun _ => TransportResult.ok r) method path json expected
      = Outcome.httpError
          { status_code := 500,
            detail := Json.obj [("error", Json.str "Invalid JSON from proxy"),
              ("details", Json.str e)] } := by
  simp [proxy_request, hin, h204, hbody, he]

/-- Witness for C3 (amended): the spec scenario — upstream 200 with body
`not-json` becomes a 500 with the protocol-error detail. -/
theorem malformed_json_yields_500_witness :
    proxy_request
      (fun _ => TransportResult.ok
        { status_code := 200, content := "not-json", reason_phrase := "OK",
          jsonResult := Except.error "Expecting value" })
      "GET" "/health" none [200]
      = Outcome.httpError
          { status_code := 500,
            detail := Json.obj [("error", Json.str "Invalid JSON from proxy"),
              ("details", Json.str "Expecting value")] } :=
  malformed_json_yields_500 "GET" "/health" none [200]
    { status_code := 200, content := "not-json", reason_phrase := "OK",
      jsonResult := Except.error "Expecting value" }
    "Expecting value" (by decide) (by decide) (by decide) rfl

/-- C5: each of the eight handlers invokes `proxy_request` with exactly the
fixed method, upstream path, body, and expected status codes of the routing
table. -/
theorem routing_table_fixed_parameters (upstream : OutboundRequest → TransportResult)
    (agent_id : String) (pc : PolicyCreate) (pu : PolicyUpdate) :
    get_status upstream = proxy_request upstream "GET" "/health" none [200] ∧
    get_logs upstream = proxy_request upstream "GET" "/api/audit-logs" none [200] ∧
    get_endpoints upstream = proxy_request upstream "GET" "/api/endpoints" none [200] ∧
    list_policies upstream = proxy_request upstream "GET" "/api/policies" none [200] ∧
    get_policy upstream agent_id
      = proxy_request upstream "GET" ("/api/policies/" ++ agent_id) none [200] ∧
    create_policy upstream pc
      = proxy_request upstream "POST" "/api/policies" (some (PolicyCreate.model_dump pc)) [201] ∧
    update_policy upstream agent_id pu
      = proxy_request upstream "PUT" ("/api/policies/" ++ agent_id)
          (some (PolicyUpdate.model_dump pu)) [200] ∧
    delete_policy upstream agent_id
      = dropBody (proxy_request upstream "DELETE" ("/api/policies/" ++ agent_id) none [204]) :=
  ⟨rfl, rfl, rfl, rfl, rfl, rfl, rfl, rfl⟩

/-- C8: a transport-level fault of the outbound call is not caught
anywhere: `proxy_request` produces no `HTTPException` for it, and the fault
propagates unhandled out of the operation, identical to the one the
transport raised. -/
theorem transport_fault_propagates (method path : String) (json : Option Json)
    (expected : List Nat) (e : String) :
    proxy_request (fun _ => TransportResult.fault e) method path json expected
      = Outcome.unhandledFault e :=
  rfl

/-- C9: the bodies forwarded by `create_policy` and `update_policy` are the
`model_dump` serializations, whose `permissions` object always carries all
four keys `read`, `create`, `update`, `delete`, each bound to the
serialization of the corresponding flag — and an unset flag serializes to
an explicit JSON null, never an omitted key. -/
theorem permissions_forwarded_with_all_keys (upstream : OutboundRequest → TransportResult)
    (agent_id : String) (pc : PolicyCreate) (pu : PolicyUpdate) (p : Permissions) :
    create_policy upstream pc
      = proxy_request upstream "POST" "/api/policies" (some (PolicyCreate.model_dump pc)) [201] ∧
    update_policy upstream agent_id pu
      = proxy_request upstream "PUT" ("/api/policies/" ++ agent_id)
          (some (PolicyUpdate.model_dump pu)) [200] ∧
    objLookup (PolicyCreate.model_dump pc) "permissions"
      = some (Permissions.model_dump pc.permissions) ∧
    objLookup (PolicyUpdate.model_dump pu) "permissions"
      = some (Permissions.model_dump pu.permissions) ∧
    objKeys (Permissions.model_dump p) = ["read", "create", "update", "delete"] ∧
    objLookup (Permissions.model_dump p) "read" = some (optBoolToJson p.read) ∧
    objLookup (Permissions.model_dump p) "create" = some (optBoolToJson p.create) ∧
    objLookup (Permissions.model_dump p) "update" = some (optBoolToJson p.update) ∧
    objLookup (Permissions.model_dump p) "delete" = some (optBoolToJson p.delete) ∧
    optBoolToJson none = Json.null :=
  ⟨rfl, rfl, rfl, rfl, rfl, rfl, rfl, rfl, rfl, rfl⟩

/-- A successful `Permissions.model_validate` means the input was an object
whose four flag members parse to exactly the flags of the result. -/
theorem permissions_validate_ok (pj : Json) (p : Permissions)
    (h : Permissions.model_validate pj = Except.ok p) :
    ∃ pkvs, pj = Json.obj pkvs ∧
      parseOptBool (jsonLookup pkvs "read") = Except.ok p.read ∧
      parseOptBool (jsonLookup pkvs "create") = Except.ok p.create ∧
      parseOptBool (jsonLookup pkvs "update") = Except.ok p.update ∧
      parseOptBool (jsonLookup pkvs "delete") = Except.ok p.delete := by
  cases pj with
  | obj pkvs =>
    refine ⟨pkvs, rfl, ?_⟩
    simp only [Permissions.model_validate, bind, Except.bind] at h
    cases hr : parseOptBool (jsonLookup pkvs "read") with
    | error e => simp [hr] at h
    | ok r =>
      simp only [hr] at h
      cases hc : parseOptBool (jsonLookup pkvs "create") with
      | error e => simp [hc] at h
      | ok c =>
        simp only [hc] at h
        cases hu : parseOptBool (jsonLookup pkvs "update") with
        | error e => simp [hu] at h
        | ok u =>
          simp only [hu] at h
          cases hd : parseOptBool (jsonLookup pkvs "delete") with
          | error e => simp [hd] at h
          | ok d =>
            simp only [hd, Except.ok.injEq] at h
            rw [← h]
            exact ⟨rfl, rfl, rfl, rfl⟩
  | null => simp [Permissions.model_validate] at h
  | bool b => simp [Permissions.model_validate] at h
  | num n => simp [Permissions.model_validate] at h
  | str s => simp [Permissions.model_validate] at h
  | arr xs => simp [Permissions.model_validate] at h

/-- A successful `PolicyCreate.model_validate` means the inbound object
bound `agentId` and `endpointId` to exactly the resulting strings, and its
`permissions` member validates to the resulting flags. -/
theorem policy_create_validate_ok (kvs : List (String × Json)) (payload : PolicyCreate)
    (h : PolicyCreate.model_validate (Json.obj kvs) = Except.ok payload) :
    jsonLookup kvs "agentId" = some (Json.str payload.agentId) ∧
    jsonLookup kvs "endpointId" = some (Json.str payload.endpointId) ∧
    permissionsAgree kvs payload.permissions := by
  simp only [PolicyCreate.model_validate] at h
  cases ha : jsonLookup kvs "agentId" with
  | none => simp [ha] at h
  | some av =>
    cases av with
    | str a =>
      simp only [ha] at h
      cases he : jsonLookup kvs "endpointId" with
      | none => simp [he] at h
      | some ev =>
        cases ev with
        | str e =>
          simp only [he] at h
          cases hp : jsonLookup kvs "permissions" with
          | none =>
            simp only [hp, Except.ok.injEq] at h
            rw [← h]
            exact ⟨rfl, rfl, by simp [permissionsAgree, hp]⟩
          | some pj =>
            simp only [hp] at h
            cases hv : Permissions.model_validate pj with
            | error msg => simp [hv] at h
            | ok p =>
              simp only [hv, Except.ok.injEq] at h
              obtain ⟨pkvs, hpj, hflags⟩ := permissions_validate_ok pj p hv
              rw [← h]
              refine ⟨rfl, rfl, ?_⟩
              rw [hpj] at hp
              simp [permissionsAgree, hp, hflags]
        | null => simp [he] at h
        | bool b => simp [he] at h
        | num n => simp [he] at h
        | arr xs => simp [he] at h
        | obj o => simp [he] at h
    | null => simp [ha] at h
    | bool b => simp [ha] at h
    | num n => simp [ha] at h
    | arr xs => simp [ha] at h
    | obj o => simp [ha] at h

/-- C6: for every inbound body accepted by `PolicyCreate` validation, the
JSON body forwarded to upstream `POST /api/policies` is the payload
serialization, which agrees field-for-field with the inbound body: the same
`agentId` and `endpointId` strings, and permission flags that are exactly
the parse of the inbound `permissions` member (unset flags rendered as
null by `optBoolToJson`). -/
theorem policy_create_roundtrip (upstream : OutboundRequest → TransportResult)
    (kvs : List (String × Json)) (payload : PolicyCreate)
    (h : PolicyCreate.model_validate (Json.obj kvs) = Except.ok payload) :
    create_policy upstream payload
      = proxy_request upstream "POST" "/api/policies"
          (some (PolicyCreate.model_dump payload)) [201] ∧
    jsonLookup kvs "agentId" = some (Json.str payload.agentId) ∧
    jsonLookup kvs "endpointId" = some (Json.str payload.endpointId) ∧
    objLookup (PolicyCreate.model_dump payload) "agentId"
      = some (Json.str payload.agentId) ∧
    objLookup (PolicyCreate.model_dump payload) "endpointId"
      = some (Json.str payload.endpointId) ∧
    objLookup (PolicyCreate.model_dump payload) "permissions"
      = some (Json.obj [("read", optBoolToJson payload.permissions.read),
          ("create", optBoolToJson payload.permissions.create),
          ("update", optBoolToJson payload.permissions.update),
          ("delete", optBoolToJson payload.permissions.delete)]) ∧
    permissionsAgree kvs payload.permissions := by
  obtain ⟨ha, he, hp⟩ := policy_create_validate_ok kvs payload h
  exact ⟨rfl, ha, he, rfl, rfl, rfl, hp⟩

/-- Witness for C6: the spec scenario body
`{"agentId": "a1", "endpointId": "e1", "permissions": {"read": true}}`. -/
theorem policy_create_roundtrip_witness :
    jsonLookup
        [("agentId", Json.str "a1"), ("endpointId", Json.str "e1"),
          ("permissions", Json.obj [("read", Json.bool true)])] "agentId"
      = some (Json.str "a1") ∧
    objLookup
        (PolicyCreate.model_dump
          { agentId := "a1", endpointId := "e1",
            permissions := { read := some true, create := none, update := none, delete := none } })
        "permissions"
      = some (Json.obj [("read", Json.bool true), ("create", Json.null),
          ("update", Json.null), ("delete", Json.null)]) ∧
    permissionsAgree
      [("agentId", Json.str "a1"), ("endpointId", Json.str "e1"),
        ("permissions", Json.obj [("read", Json.bool true)])]
      { read := some true, create := none, update := none, delete := none } := by
  have h := policy_create_roundtrip (probe 201)
    [("agentId", Json.str "a1"), ("endpointId", Json.str "e1"),
      ("permissions", Json.obj [("read", Json.bool true)])]
    { agentId := "a1", endpointId := "e1",
      permissions := { read := some true, create := none, update := none, delete := none } }
    rfl
  exact ⟨h.2.1, h.2.2.2.2.2.1, h.2.2.2.2.2.2⟩

/-- C7 counterexample: a `POST /policies` body whose `agentId` is the empty
string is NOT rejected — validation succeeds and the body, empty `agentId`
included, is forwarded to upstream `POST /api/policies` (the echoing test
upstream sees it arrive). The declared fields carry no non-empty
constraint. -/
theorem empty_agent_id_accepted_and_forwarded_cex :
    create_policy_route (probe 201)
        (Json.obj [("agentId", Json.str ""), ("endpointId", Json.str "e1")])
      = RouteResult.handled (Outcome.ok (some (Json.obj
          [("method", Json.str "POST"),
            ("url", Json.str "http://localhost:5001/api/policies"),
            ("body", Json.obj
              [("agentId", Json.str ""), ("endpointId", Json.str "e1"),
                ("permissions", Json.obj
                  [("read", Json.null), ("create", Json.null),
                    ("update", Json.null), ("delete", Json.null)])])]))) :=
  rfl

/-- C7 (amended): `agentId` and `endpointId` are required string fields: a
body in which either is absent or bound to a non-string is rejected with a
validation error, whatever the upstream — so nothing is forwarded. (An
empty string, however, satisfies the declared schema and is accepted.) -/
theorem missing_identifier_rejected (upstream : OutboundRequest → TransportResult)
    (kvs : List (String × Json))
    (h : noStrField kvs "agentId" ∨ noStrField kvs "endpointId") :
    ∃ e, create_policy_route upstream (Json.obj kvs) = RouteResult.validationError e := by
  cases hv : PolicyCreate.model_validate (Json.obj kvs) with
  | error e => exact ⟨e, by simp [create_policy_route, hv]⟩
  | ok payload =>
    obtain ⟨ha, he, -⟩ := policy_create_validate_ok kvs payload hv
    rcases h with h | h
    · exact absurd ha (h payload.agentId)
    · exact absurd he (h payload.endpointId)

/-- Witness for C7 (amended): a body with no `agentId` member is rejected. -/
theorem missing_identifier_rejected_witness :
    ∃ e, create_policy_route (probe 201) (Json.obj [("endpointId", Json.str "e1")])
      = RouteResult.validationError e :=
  missing_identifier_rejected (probe 201) [("endpointId", Json.str "e1")]
    (Or.inl (fun _ hcon => Option.noConfusion hcon))

/-- Appending a binding for a different key does not change a first-match
lookup. -/
theorem jsonLookup_append_not_key (l : List (String × Json)) (k : String) (v : Json)
    (key : String) (h : k ≠ key) :
    jsonLookup (l ++ [(k, v)]) key = jsonLookup l key := by
  induction l with
  | nil => simp [jsonLookup, h]
  | cons kv rest ih =>
    cases kv with
    | mk k1 v1 => by_cases hk : k1 = key <;> simp [jsonLookup, hk, ih]

/-- C10: a body extended with a key outside the declared model validates
exactly as the body without it — the request is accepted or rejected
identically, the full routes behave identically, and the bodies the
handlers forward contain only the declared fields (`model_dump` emits
exactly the declared keys). -/
theorem extra_keys_silently_dropped (upstream : OutboundRequest → TransportResult)
    (agent_id : String) (kvs : List (String × Json)) (k : String) (v : Json)
    (pc : PolicyCreate) (pu : PolicyUpdate)
    (h1 : k ≠ "agentId") (h2 : k ≠ "endpointId") (h3 : k ≠ "permissions") :
    PolicyCreate.model_validate (Json.obj (kvs ++ [(k, v)]))
      = PolicyCreate.model_validate (Json.obj kvs) ∧
    create_policy_route upstream (Json.obj (kvs ++ [(k, v)]))
      = create_policy_route upstream (Json.obj kvs) ∧
    (∀ k2 v2, k2 ≠ "permissions" →
      PolicyUpdate.model_validate (Json.obj (kvs ++ [(k2, v2)]))
        = PolicyUpdate.model_validate (Json.obj kvs)) ∧
    (∀ k2 v2, k2 ≠ "permissions" →
      update_policy_route upstream agent_id (Json.obj (kvs ++ [(k2, v2)]))
        = update_policy_route upstream agent_id (Json.obj kvs)) ∧
    objKeys (PolicyCreate.model_dump pc) = ["agentId", "endpointId", "permissions"] ∧
    objKeys (PolicyUpdate.model_dump pu) = ["permissions"] := by
  have hcreate : PolicyCreate.model_validate (Json.obj (kvs ++ [(k, v)]))
      = PolicyCreate.model_validate (Json.obj kvs) := by
    simp only [PolicyCreate.model_validate]
    rw [jsonLookup_append_not_key kvs k v "agentId" h1,
      jsonLookup_append_not_key kvs k v "endpointId" h2,
      jsonLookup_append_not_key kvs k v "permissions" h3]
  have hupdate : ∀ k2 v2, k2 ≠ "permissions" →
      PolicyUpdate.model_validate (Json.obj (kvs ++ [(k2, v2)]))
        = PolicyUpdate.model_validate (Json.obj kvs) := by
    intro k2 v2 hk2
    simp only [PolicyUpdate.model_validate]
    rw [jsonLookup_append_not_key kvs k2 v2 "permissions" hk2]
  refine ⟨hcreate, ?_, hupdate, ?_, rfl, rfl⟩
  · simp only [create_policy_route, hcreate]
  · intro k2 v2 hk2
    simp only [update_policy_route, hupdate k2 v2 hk2]

/-- Witness for C10: an extra `note` key on a create body is ignored. -/
theorem extra_keys_silently_dropped_witness :
    PolicyCreate.model_validate
        (Json.obj ([("agentId", Json.str "a1"), ("endpointId", Json.str "e1")]
          ++ [("note", Json.str "x")]))
      = PolicyCreate.model_validate
          (Json.obj [("agentId", Json.str "a1"), ("endpointId", Json.str "e1")]) ∧
    objKeys
        (PolicyCreate.model_dump
          { agentId := "a1", endpointId := "e1",
            permissions := { read := none, create := none, update := none, delete := none } })
      = ["agentId", "endpointId", "permissions"] := by
  have h := extra_keys_silently_dropped (probe 201) "a1"
    [("agentId", Json.str "a1"), ("endpointId", Json.str "e1")] "note" (Json.str "x")
    { agentId := "a1", endpointId := "e1",
      permissions := { read := none, create := none, update := none, delete := none } }
    { permissions := { read := none, create := none, update := none, delete := none } }
    (by decide) (by decide) (by decide)
  exact ⟨h.1, h.2.2.2.2.1⟩
